import Mathlib

/-!
Shallow embedding of the rot-detector dependency health scorer.

The embedding covers the core scoring module (calculateHealthScore and its
three sub-score functions), the risk classification getRiskLevel, and the
scan-summary tally of the CLI orchestrator.

Conventions of the embedding:
  - JS Date values are integer milliseconds since the Unix epoch (Timestamp).
  - JS strings are lists of characters (List Char).  String.prototype
    .toUpperCase is embedded as ASCII uppercasing (Char.toUpper), which agrees
    with JS on ASCII input; the regex \s+ is embedded as runs of the ASCII
    whitespace characters space, tab, LF, CR, VT, FF.
  - Optional / nullable values are Option.
  - The source computes the overall score as Math.round over IEEE doubles:
    Math.round(f*0.40 + m*0.30 + l*0.30).  Here it is embedded as exact
    rational arithmetic with round-half-up (jsRound).  The sub-scores range
    over the finite sets f in 5,10,20,40,50,75,100; m in 10,40,70,85,100;
    l in 30,50,60,100, and over all such triples the IEEE-double computation
    of the source was checked exhaustively to coincide with the exact
    rational result, so the embedding is faithful at every reachable input.
-/

/-- JS Date values are embedded as integer milliseconds since the Unix epoch. -/
abbrev Timestamp := Int

/-- Status enum of FreshnessScore. -/
inductive FreshnessStatus
  | active
  | stale
  | abandoned
  | unknown
deriving DecidableEq

/-- Status enum of MaintainerScore. -/
inductive MaintainerStatus
  | healthy
  | warning
  | critical
deriving DecidableEq

/-- Status enum of LicenseScore. -/
inductive LicenseStatus
  | approved
  | warning
  | unknown
  | deprecated
deriving DecidableEq

/-- Risk level classification (types/index.ts). -/
inductive RiskLevel
  | healthy
  | warning
  | critical
  | unknown
deriving DecidableEq

/-- A registry maintainer entry (types/index.ts). -/
structure Maintainer where
  name : List Char
  email : Option (List Char)
deriving DecidableEq

/-- Package metadata from registries (types/index.ts). -/
structure PackageMetadata where
  name : List Char
  version : List Char
  lastPublished : Option Timestamp
  maintainers : List Maintainer
  license : Option (List Char)
  repositoryUrl : Option (List Char)
  homepage : Option (List Char)
  description : Option (List Char)
deriving DecidableEq

/-- Repository health signals (github-client.ts). -/
structure GitHubRepoHealth where
  lastCommitDate : Option Timestamp
  contributorCount : Nat
  openIssues : Nat
  stars : Nat
  isArchived : Bool
deriving DecidableEq

/-- Freshness sub-score record (types/index.ts). -/
structure FreshnessScore where
  score : Nat
  lastUpdate : Option Timestamp
  daysSinceUpdate : Option Int
  status : FreshnessStatus
deriving DecidableEq

/-- Maintainer sub-score record (types/index.ts). -/
structure MaintainerScore where
  score : Nat
  count : Nat
  status : MaintainerStatus
deriving DecidableEq

/-- License sub-score record (types/index.ts). -/
structure LicenseScore where
  score : Nat
  license : Option (List Char)
  status : LicenseStatus
deriving DecidableEq

/-- Overall health score record (types/index.ts). -/
structure HealthScore where
  overall : Int
  freshness : FreshnessScore
  maintainerHealth : MaintainerScore
  licenseHealth : LicenseScore
deriving DecidableEq

/-- OSI-approved licenses, in the insertion order of the source Set. -/
def OSI_APPROVED_LICENSES : List (List Char) :=
  ["MIT".toList, "Apache-2.0".toList, "BSD-2-Clause".toList, "BSD-3-Clause".toList,
   "ISC".toList, "MPL-2.0".toList, "GPL-3.0".toList, "GPL-3.0-only".toList,
   "GPL-3.0-or-later".toList, "LGPL-3.0".toList, "LGPL-3.0-only".toList,
   "LGPL-3.0-or-later".toList, "AGPL-3.0".toList, "Unlicense".toList, "0BSD".toList,
   "CC0-1.0".toList, "Zlib".toList, "Artistic-2.0".toList, "EPL-2.0".toList,
   "EUPL-1.2".toList]

/-- Deprecated or problematic licenses, in the insertion order of the source Set. -/
def DEPRECATED_LICENSES : List (List Char) :=
  ["GPL-2.0".toList, "LGPL-2.0".toList, "LGPL-2.1".toList, "BSD-4-Clause".toList,
   "WTFPL".toList]

/-- Weights for the overall score calculation. -/
structure Weights where
  freshness : ℚ
  maintainers : ℚ
  license : ℚ

/-- The weight constants of the scorer. -/
def WEIGHTS : Weights :=
  { freshness := 0.40, maintainers := 0.30, license := 0.30 }

/-- Milliseconds per day, the divisor 1000*60*60*24 of the source. -/
def msPerDay : Int := 1000 * 60 * 60 * 24

/-- ASCII whitespace characters matched by the JS regex class \s
(space, tab, LF, CR, VT, FF). -/
def jsIsWhitespace (c : Char) : Bool :=
  c == ' ' || c == '\t' || c == '\n' || c == '\r' || c == Char.ofNat 11 || c == Char.ofNat 12

/-- Replace every maximal run of whitespace by a single hyphen, as the JS
replace with the global regex \s+ and replacement hyphen does.  The Bool
argument records whether the previous character was inside a whitespace run. -/
def collapseWhitespaceAux : Bool → List Char → List Char
  | _, [] => []
  | inRun, c :: rest =>
    if jsIsWhitespace c then
      if inRun then collapseWhitespaceAux true rest
      else '-' :: collapseWhitespaceAux true rest
    else
      c :: collapseWhitespaceAux false rest

/-- license.toUpperCase().replace of whitespace runs by hyphens (scoring.ts). -/
def normalizeLicense (s : List Char) : List Char :=
  collapseWhitespaceAux false (s.map Char.toUpper)

/-- Whether the second list starts with the first (pattern, haystack). -/
def listStartsWith : List Char → List Char → Bool
  | [], _ => true
  | _ :: _, [] => false
  | p :: ps, h :: hs => p == h && listStartsWith ps hs

/-- JS String.prototype.includes: the pattern occurs as a contiguous
substring of the haystack (second argument). -/
def listContainsSub (pat : List Char) : List Char → Bool
  | [] => listStartsWith pat []
  | c :: rest => listStartsWith pat (c :: rest) || listContainsSub pat rest

/-- The reference timestamp resolution of calculateFreshnessScore:
githubHealth lastCommitDate if present, else metadata.lastPublished
(JS: githubHealth?.lastCommitDate || metadata.lastPublished; a Date object
is always truthy, so || only falls through on null / undefined). -/
def resolveLastUpdate (metadata : PackageMetadata)
    (githubHealth : Option GitHubRepoHealth) : Option Timestamp :=
  match githubHealth.bind GitHubRepoHealth.lastCommitDate with
  | some d => some d
  | none => metadata.lastPublished

/-- JS githubHealth?.isArchived: undefined (absent health) is falsy. -/
def isArchivedFlag (githubHealth : Option GitHubRepoHealth) : Bool :=
  match githubHealth with
  | some g => g.isArchived
  | none => false

/-- The nested if/else threshold chain of calculateFreshnessScore, mapping
the day count to (score, status). -/
def freshnessThresholds (daysSinceUpdate : Int) : Nat × FreshnessStatus :=
  if daysSinceUpdate < 180 then (100, .active)
  else if daysSinceUpdate < 365 then (75, .active)
  else if daysSinceUpdate < 730 then (40, .stale)
  else if daysSinceUpdate < 1095 then (20, .abandoned)
  else (5, .abandoned)

/-- calculateFreshnessScore (scoring.ts).  The wall clock now is passed
explicitly; the day count is the floor of the real quotient, Int.fdiv. -/
def calculateFreshnessScore (now : Timestamp) (metadata : PackageMetadata)
    (githubHealth : Option GitHubRepoHealth) : FreshnessScore :=
  match resolveLastUpdate metadata githubHealth with
  | none =>
    { score := 50, lastUpdate := none, daysSinceUpdate := none, status := .unknown }
  | some lastUpdate =>
    let daysSinceUpdate : Int := (now - lastUpdate).fdiv msPerDay
    let base := freshnessThresholds daysSinceUpdate
    let score := if isArchivedFlag githubHealth then min base.1 10 else base.1
    let status := if isArchivedFlag githubHealth then FreshnessStatus.abandoned else base.2
    { score := score, lastUpdate := some lastUpdate,
      daysSinceUpdate := some daysSinceUpdate, status := status }

/-- The count resolution of calculateMaintainerScore: the JS
githubHealth?.contributorCount || metadata.maintainers.length falls back to
the registry maintainer count when health is absent or the contributor count
is 0 (falsy). -/
def resolveMaintainerCount (metadata : PackageMetadata)
    (githubHealth : Option GitHubRepoHealth) : Nat :=
  match githubHealth with
  | some g =>
    if g.contributorCount ≠ 0 then g.contributorCount else metadata.maintainers.length
  | none => metadata.maintainers.length

/-- The if/else chain of calculateMaintainerScore mapping the resolved count
to the sub-score record. -/
def maintainerMapping (count : Nat) : MaintainerScore :=
  if 5 ≤ count then { score := 100, count := count, status := .healthy }
  else if 3 ≤ count then { score := 85, count := count, status := .healthy }
  else if count = 2 then { score := 70, count := count, status := .warning }
  else if count = 1 then { score := 40, count := count, status := .warning }
  else { score := 10, count := count, status := .critical }

/-- calculateMaintainerScore (scoring.ts). -/
def calculateMaintainerScore (metadata : PackageMetadata)
    (githubHealth : Option GitHubRepoHealth) : MaintainerScore :=
  maintainerMapping (resolveMaintainerCount metadata githubHealth)

/-- calculateLicenseScore (scoring.ts).  The source guard is if (!license),
which is truthy for null and for the empty string alike, and it returns the
30 / unknown record with a null license field in both cases.  The source
iterates each Set and returns on the first substring hit; since every hit in
a set yields the same result, the iteration is embedded as List.any. -/
def calculateLicenseScore (metadata : PackageMetadata) : LicenseScore :=
  match metadata.license with
  | none => { score := 30, license := none, status := .unknown }
  | some license =>
    if license.isEmpty then
      { score := 30, license := none, status := .unknown }
    else
    let normalizedLicense := normalizeLicense license
    if DEPRECATED_LICENSES.any
        (fun d => listContainsSub (d.map Char.toUpper) normalizedLicense) then
      { score := 50, license := some license, status := .deprecated }
    else if OSI_APPROVED_LICENSES.any
        (fun a => listContainsSub (a.map Char.toUpper) normalizedLicense) then
      { score := 100, license := some license, status := .approved }
    else
      { score := 60, license := some license, status := .warning }

/-- JS Math.round: round half toward positive infinity.  The source applies
it to an IEEE-double weighted sum; over every reachable sub-score triple the
double computation equals this exact rational computation (checked
exhaustively), so the rational embedding is faithful. -/
def jsRound (x : ℚ) : ℤ := ⌊x + 1 / 2⌋

/-- calculateHealthScore (scoring.ts). -/
def calculateHealthScore (now : Timestamp) (metadata : PackageMetadata)
    (githubHealth : Option GitHubRepoHealth) : HealthScore :=
  let freshness := calculateFreshnessScore now metadata githubHealth
  let maintainerHealth := calculateMaintainerScore metadata githubHealth
  let licenseHealth := calculateLicenseScore metadata
  let overall := jsRound ((freshness.score : ℚ) * WEIGHTS.freshness
    + (maintainerHealth.score : ℚ) * WEIGHTS.maintainers
    + (licenseHealth.score : ℚ) * WEIGHTS.license)
  { overall := overall, freshness := freshness,
    maintainerHealth := maintainerHealth, licenseHealth := licenseHealth }

/-- getRiskLevel (types/index.ts); null scores are Option.none. -/
def getRiskLevel (score : Option Int) : RiskLevel :=
  match score with
  | none => .unknown
  | some s => if 80 ≤ s then .healthy else if 50 ≤ s then .warning else .critical

/-- Ecosystem of a dependency (types/index.ts). -/
inductive DepSource
  | npm
  | pypi
  | go
deriving DecidableEq

/-- Direct or transitive dependency (types/index.ts). -/
inductive DepType
  | direct
  | transitive
deriving DecidableEq

/-- A declared dependency (types/index.ts). -/
structure Dependency where
  name : List Char
  version : List Char
  type : DepType
  source : DepSource
  isDev : Bool
deriving DecidableEq

/-- Analysis result of a single dependency (types/index.ts). -/
structure DependencyAnalysis where
  dependency : Dependency
  metadata : Option PackageMetadata
  health : Option HealthScore
  error : Option (List Char)
deriving DecidableEq

/-- Scan summary tallies (types/index.ts). -/
structure ScanSummary where
  total : Nat
  healthy : Nat
  warning : Nat
  critical : Nat
  failed : Nat
deriving DecidableEq

/-- The risk level the summary filters apply to an analysis:
getRiskLevel(a.health?.overall ?? null) (cli/index.ts). -/
def riskOfAnalysis (a : DependencyAnalysis) : RiskLevel :=
  getRiskLevel (a.health.map HealthScore.overall)

/-- The analysis record pushed by runScan when the registry fetch of a
dependency throws: metadata and health null, the error recorded
(cli/index.ts). -/
def failedAnalysis (dep : Dependency) (msg : List Char) : DependencyAnalysis :=
  { dependency := dep, metadata := none, health := none, error := some msg }

/-- The summary computation of runScan (cli/index.ts): four filtered counts
over the analyses plus the total. -/
def computeScanSummary (analyses : List DependencyAnalysis) : ScanSummary :=
  { total := analyses.length,
    healthy := (analyses.filter (fun a => decide (riskOfAnalysis a = RiskLevel.healthy))).length,
    warning := (analyses.filter (fun a => decide (riskOfAnalysis a = RiskLevel.warning))).length,
    critical := (analyses.filter (fun a => decide (riskOfAnalysis a = RiskLevel.critical))).length,
    failed := (analyses.filter (fun a => a.error.isSome)).length }

/-- The all-null metadata record: every nullable field null, no maintainers. -/
def mdEmpty : PackageMetadata :=
  { name := [], version := [], lastPublished := none, maintainers := [],
    license := none, repositoryUrl := none, homepage := none, description := none }

/-- Metadata whose only non-null field is a last-published date at epoch 0. -/
def mdPub0 : PackageMetadata :=
  { mdEmpty with lastPublished := some 0 }

/-- A concrete archived repository health record with no commit date. -/
def ghArchivedNoCommit : GitHubRepoHealth :=
  { lastCommitDate := none, contributorCount := 0, openIssues := 0, stars := 0,
    isArchived := true }

/-- A concrete archived repository health record with a commit at epoch 0. -/
def ghArchived0 : GitHubRepoHealth :=
  { lastCommitDate := some 0, contributorCount := 0, openIssues := 0, stars := 0,
    isArchived := true }

/-- A concrete non-archived repository health record with 7 contributors. -/
def ghContrib7 : GitHubRepoHealth :=
  { lastCommitDate := none, contributorCount := 7, openIssues := 0, stars := 0,
    isArchived := false }

/-! ### Helper lemmas -/

lemma floor_natCast_div_ten (n : ℕ) : ⌊(n : ℚ) / 10⌋ = ((n / 10 : ℕ) : ℤ) := by
  have h1 : (n / 10 : ℕ) * 10 ≤ n := by omega
  have h2 : n < ((n / 10 : ℕ) + 1) * 10 := by omega
  rw [Int.floor_eq_iff]
  constructor
  · rw [le_div_iff₀ (by norm_num : (0 : ℚ) < 10)]
    exact_mod_cast h1
  · rw [div_lt_iff₀ (by norm_num : (0 : ℚ) < 10)]
    push_cast
    exact_mod_cast h2

lemma jsRound_weighted (f m l : ℕ) :
    jsRound ((f : ℚ) * WEIGHTS.freshness + (m : ℚ) * WEIGHTS.maintainers
      + (l : ℚ) * WEIGHTS.license) = ((4 * f + 3 * m + 3 * l + 5) / 10 : ℕ) := by
  have hx : (f : ℚ) * WEIGHTS.freshness + (m : ℚ) * WEIGHTS.maintainers
      + (l : ℚ) * WEIGHTS.license + 1 / 2
      = ((4 * f + 3 * m + 3 * l + 5 : ℕ) : ℚ) / 10 := by
    show (f : ℚ) * (0.40 : ℚ) + (m : ℚ) * (0.30 : ℚ) + (l : ℚ) * (0.30 : ℚ) + 1 / 2 = _
    push_cast
    rw [eq_div_iff (by norm_num : (10 : ℚ) ≠ 0)]
    ring_nf
  unfold jsRound
  rw [hx, floor_natCast_div_ten]

lemma overall_eq (now : Timestamp) (metadata : PackageMetadata)
    (githubHealth : Option GitHubRepoHealth) :
    (calculateHealthScore now metadata githubHealth).overall
      = (((4 * (calculateFreshnessScore now metadata githubHealth).score
          + 3 * (calculateMaintainerScore metadata githubHealth).score
          + 3 * (calculateLicenseScore metadata).score + 5) / 10 : ℕ) : ℤ) := by
  simp only [calculateHealthScore]
  exact jsRound_weighted _ _ _

lemma calculateFreshnessScore_none (now : Timestamp) (metadata : PackageMetadata)
    (githubHealth : Option GitHubRepoHealth)
    (h : resolveLastUpdate metadata githubHealth = none) :
    calculateFreshnessScore now metadata githubHealth
      = { score := 50, lastUpdate := none, daysSinceUpdate := none, status := .unknown } := by
  unfold calculateFreshnessScore
  rw [h]

lemma calculateFreshnessScore_some (now : Timestamp) (t : Timestamp)
    (metadata : PackageMetadata) (githubHealth : Option GitHubRepoHealth)
    (h : resolveLastUpdate metadata githubHealth = some t) :
    calculateFreshnessScore now metadata githubHealth
      = { score := if isArchivedFlag githubHealth then
            min (freshnessThresholds ((now - t).fdiv msPerDay)).1 10
          else (freshnessThresholds ((now - t).fdiv msPerDay)).1,
          lastUpdate := some t,
          daysSinceUpdate := some ((now - t).fdiv msPerDay),
          status := if isArchivedFlag githubHealth then FreshnessStatus.abandoned
          else (freshnessThresholds ((now - t).fdiv msPerDay)).2 } := by
  unfold calculateFreshnessScore
  rw [h]

lemma calculateLicenseScore_none (metadata : PackageMetadata)
    (h : metadata.license = none) :
    calculateLicenseScore metadata
      = { score := 30, license := none, status := .unknown } := by
  unfold calculateLicenseScore
  rw [h]

lemma calculateLicenseScore_empty (metadata : PackageMetadata)
    (h : metadata.license = some []) :
    calculateLicenseScore metadata
      = { score := 30, license := none, status := .unknown } := by
  unfold calculateLicenseScore
  rw [h]
  rfl

lemma calculateLicenseScore_some (metadata : PackageMetadata) (s : List Char)
    (h : metadata.license = some s) (hne : s.isEmpty = false) :
    calculateLicenseScore metadata
      = (if DEPRECATED_LICENSES.any
            (fun d => listContainsSub (d.map Char.toUpper) (normalizeLicense s)) then
          { score := 50, license := some s, status := .deprecated }
        else if OSI_APPROVED_LICENSES.any
            (fun a => listContainsSub (a.map Char.toUpper) (normalizeLicense s)) then
          { score := 100, license := some s, status := .approved }
        else { score := 60, license := some s, status := .warning }) := by
  unfold calculateLicenseScore
  rw [h]
  cases s with
  | nil => simp at hne
  | cons c rest => rfl

lemma freshnessThresholds_bounds (d : Int) :
    5 ≤ (freshnessThresholds d).1 ∧ (freshnessThresholds d).1 ≤ 100 := by
  unfold freshnessThresholds
  split_ifs <;> exact ⟨by decide, by decide⟩

lemma freshness_score_bounds (now : Timestamp) (metadata : PackageMetadata)
    (githubHealth : Option GitHubRepoHealth) :
    5 ≤ (calculateFreshnessScore now metadata githubHealth).score
    ∧ (calculateFreshnessScore now metadata githubHealth).score ≤ 100 := by
  cases h : resolveLastUpdate metadata githubHealth with
  | none =>
    rw [calculateFreshnessScore_none now metadata githubHealth h]
    exact ⟨by decide, by decide⟩
  | some t =>
    rw [calculateFreshnessScore_some now t metadata githubHealth h]
    have hb := freshnessThresholds_bounds ((now - t).fdiv msPerDay)
    by_cases harch : isArchivedFlag githubHealth <;> simp only [harch, if_true, if_false] <;>
      simp <;> omega

lemma maintainer_score_bounds (metadata : PackageMetadata)
    (githubHealth : Option GitHubRepoHealth) :
    10 ≤ (calculateMaintainerScore metadata githubHealth).score
    ∧ (calculateMaintainerScore metadata githubHealth).score ≤ 100 := by
  unfold calculateMaintainerScore maintainerMapping
  split_ifs <;> exact ⟨by norm_num, by norm_num⟩

lemma license_score_bounds (metadata : PackageMetadata) :
    30 ≤ (calculateLicenseScore metadata).score
    ∧ (calculateLicenseScore metadata).score ≤ 100 := by
  cases h : metadata.license with
  | none =>
    rw [calculateLicenseScore_none metadata h]
    exact ⟨by decide, by decide⟩
  | some s =>
    rcases s with _ | ⟨c, rest⟩
    · rw [calculateLicenseScore_empty metadata h]
      exact ⟨by decide, by decide⟩
    · rw [calculateLicenseScore_some metadata (c :: rest) h rfl]
      split_ifs <;> exact ⟨by norm_num, by norm_num⟩

/-! ### Claim theorems -/

/-- Claim C1: for every metadata and optional repository health input, the
overall field of calculateHealthScore equals round-half-up of
0.40·freshness + 0.30·maintainer + 0.30·license in exact arithmetic, which is
the natural number (4f + 3m + 3l + 5) / 10; in particular the sub-scores
freshness 100, maintainer 70, license 100 give overall 91. -/
theorem claim_C1 (now : Timestamp) (metadata : PackageMetadata)
    (githubHealth : Option GitHubRepoHealth) :
    (calculateHealthScore now metadata githubHealth).overall
      = (((4 * (calculateHealthScore now metadata githubHealth).freshness.score
          + 3 * (calculateHealthScore now metadata githubHealth).maintainerHealth.score
          + 3 * (calculateHealthScore now metadata githubHealth).licenseHealth.score
          + 5) / 10 : ℕ) : ℤ)
    ∧ jsRound (100 * WEIGHTS.freshness + 70 * WEIGHTS.maintainers
        + 100 * WEIGHTS.license) = 91 := by
  constructor
  · have ef : (calculateHealthScore now metadata githubHealth).freshness
        = calculateFreshnessScore now metadata githubHealth := rfl
    have em : (calculateHealthScore now metadata githubHealth).maintainerHealth
        = calculateMaintainerScore metadata githubHealth := rfl
    have el : (calculateHealthScore now metadata githubHealth).licenseHealth
        = calculateLicenseScore metadata := rfl
    rw [ef, em, el]
    exact overall_eq now metadata githubHealth
  · have h := jsRound_weighted 100 70 100
    norm_num at h
    exact_mod_cast h

/-- Claim C6: for every input, the overall score lies in [0, 100] and each of
the three sub-scores lies in [0, 100] (sub-scores are naturals, so the lower
bound is implicit in the type). -/
theorem claim_C6 (now : Timestamp) (metadata : PackageMetadata)
    (githubHealth : Option GitHubRepoHealth) :
    0 ≤ (calculateHealthScore now metadata githubHealth).overall
    ∧ (calculateHealthScore now metadata githubHealth).overall ≤ 100
    ∧ (calculateHealthScore now metadata githubHealth).freshness.score ≤ 100
    ∧ (calculateHealthScore now metadata githubHealth).maintainerHealth.score ≤ 100
    ∧ (calculateHealthScore now metadata githubHealth).licenseHealth.score ≤ 100 := by
  obtain ⟨hf1, hf2⟩ := freshness_score_bounds now metadata githubHealth
  obtain ⟨hm1, hm2⟩ := maintainer_score_bounds metadata githubHealth
  obtain ⟨hl1, hl2⟩ := license_score_bounds metadata
  have ho := overall_eq now metadata githubHealth
  have ef : (calculateHealthScore now metadata githubHealth).freshness
      = calculateFreshnessScore now metadata githubHealth := rfl
  have em : (calculateHealthScore now metadata githubHealth).maintainerHealth
      = calculateMaintainerScore metadata githubHealth := rfl
  have el : (calculateHealthScore now metadata githubHealth).licenseHealth
      = calculateLicenseScore metadata := rfl
  rw [ho, ef, em, el]
  refine ⟨by omega, by omega, hf2, hm2, hl2⟩

/-- Claim C7: getRiskLevel maps a null score to unknown, scores of at least
80 to healthy, scores in [50, 80) to warning and scores below 50 to critical,
boundary-exactly at 80, 79, 50 and 49. -/
theorem claim_C7 (s : Int) :
    getRiskLevel none = RiskLevel.unknown
    ∧ (80 ≤ s → getRiskLevel (some s) = RiskLevel.healthy)
    ∧ (50 ≤ s → s < 80 → getRiskLevel (some s) = RiskLevel.warning)
    ∧ (s < 50 → getRiskLevel (some s) = RiskLevel.critical)
    ∧ getRiskLevel (some 80) = RiskLevel.healthy
    ∧ getRiskLevel (some 79) = RiskLevel.warning
    ∧ getRiskLevel (some 50) = RiskLevel.warning
    ∧ getRiskLevel (some 49) = RiskLevel.critical := by
  refine ⟨rfl, fun h => ?_, fun h1 h2 => ?_, fun h => ?_,
    by decide, by decide, by decide, by decide⟩
  · simp only [getRiskLevel]
    rw [if_pos h]
  · simp only [getRiskLevel]
    rw [if_neg (by omega), if_pos h1]
  · simp only [getRiskLevel]
    rw [if_neg (by omega), if_neg (by omega)]

/-- Witness for claim C7 at the concrete scores 95, 60 and 10. -/
theorem claim_C7_witness :
    ((80 : Int) ≤ 95 ∧ getRiskLevel (some 95) = RiskLevel.healthy)
    ∧ ((50 : Int) ≤ 60 ∧ (60 : Int) < 80 ∧ getRiskLevel (some 60) = RiskLevel.warning)
    ∧ ((10 : Int) < 50 ∧ getRiskLevel (some 10) = RiskLevel.critical) :=
  ⟨⟨by decide, (claim_C7 95).2.1 (by decide)⟩,
   ⟨by decide, by decide, (claim_C7 60).2.2.1 (by decide) (by decide)⟩,
   ⟨by decide, (claim_C7 10).2.2.2.1 (by decide)⟩⟩

/-- Claim C8: the scorer is total: every input yields a well-formed score in
which no component is zero (missing data degrades toward neutral scores, not
zero); in particular the all-null metadata with no repository health yields
the neutral record with freshness 50 / unknown, maintainer 10 / critical and
license 30 / unknown, overall 32. -/
theorem claim_C8 (now : Timestamp) (metadata : PackageMetadata)
    (githubHealth : Option GitHubRepoHealth) :
    (0 < (calculateHealthScore now metadata githubHealth).freshness.score
    ∧ 0 < (calculateHealthScore now metadata githubHealth).maintainerHealth.score
    ∧ 0 < (calculateHealthScore now metadata githubHealth).licenseHealth.score
    ∧ 0 < (calculateHealthScore now metadata githubHealth).overall)
    ∧ calculateHealthScore now mdEmpty none
      = ⟨32, ⟨50, none, none, FreshnessStatus.unknown⟩,
          ⟨10, 0, MaintainerStatus.critical⟩,
          ⟨30, none, LicenseStatus.unknown⟩⟩ := by
  constructor
  · obtain ⟨hf1, hf2⟩ := freshness_score_bounds now metadata githubHealth
    obtain ⟨hm1, hm2⟩ := maintainer_score_bounds metadata githubHealth
    obtain ⟨hl1, hl2⟩ := license_score_bounds metadata
    have ho := overall_eq now metadata githubHealth
    have ef : (calculateHealthScore now metadata githubHealth).freshness
        = calculateFreshnessScore now metadata githubHealth := rfl
    have em : (calculateHealthScore now metadata githubHealth).maintainerHealth
        = calculateMaintainerScore metadata githubHealth := rfl
    have el : (calculateHealthScore now metadata githubHealth).licenseHealth
        = calculateLicenseScore metadata := rfl
    rw [ho, ef, em, el]
    refine ⟨by omega, by omega, by omega, by omega⟩
  · have hf : calculateFreshnessScore now mdEmpty none
        = ⟨50, none, none, FreshnessStatus.unknown⟩ :=
      calculateFreshnessScore_none now mdEmpty none rfl
    have hm : calculateMaintainerScore mdEmpty none
        = ⟨10, 0, MaintainerStatus.critical⟩ := rfl
    have hl : calculateLicenseScore mdEmpty = ⟨30, none, LicenseStatus.unknown⟩ := rfl
    have ho := overall_eq now mdEmpty none
    rw [hf, hm, hl] at ho
    have hrec : calculateHealthScore now mdEmpty none
        = ⟨(calculateHealthScore now mdEmpty none).overall,
           calculateFreshnessScore now mdEmpty none,
           calculateMaintainerScore mdEmpty none,
           calculateLicenseScore mdEmpty⟩ := rfl
    rw [hrec, ho, hf, hm, hl]
    norm_num

/-- Claim C10: when the repository is archived but neither a last commit nor
a publish date resolves, the freshness sub-score is the missing-data default
50 / unknown: the archived override is not applied in that case. -/
theorem claim_C10 (now : Timestamp) (metadata : PackageMetadata) (g : GitHubRepoHealth)
    (harch : g.isArchived = true) (hcommit : g.lastCommitDate = none)
    (hpub : metadata.lastPublished = none) :
    calculateFreshnessScore now metadata (some g)
      = { score := 50, lastUpdate := none, daysSinceUpdate := none,
          status := FreshnessStatus.unknown } := by
  apply calculateFreshnessScore_none
  simp [resolveLastUpdate, Option.bind, hcommit, hpub]

/-- Witness for claim C10 at a concrete archived input with no timestamps. -/
theorem claim_C10_witness :
    ghArchivedNoCommit.isArchived = true
    ∧ ghArchivedNoCommit.lastCommitDate = none
    ∧ mdEmpty.lastPublished = none
    ∧ calculateFreshnessScore 0 mdEmpty (some ghArchivedNoCommit)
      = { score := 50, lastUpdate := none, daysSinceUpdate := none,
          status := FreshnessStatus.unknown } :=
  ⟨rfl, rfl, rfl, claim_C10 0 mdEmpty ghArchivedNoCommit rfl rfl rfl⟩

/-- Claim C2: the freshness sub-score resolves the reference timestamp as the
repository last commit date if present, else the registry publish date;
with no timestamp it returns 50 / unknown; otherwise it floors the elapsed
whole days and maps them boundary-exactly (non-archived): under 180 days
100 / active, 180 to 364 days 75 / active, 365 to 729 days 40 / stale,
730 to 1094 days 20 / abandoned, 1095 days and beyond 5 / abandoned. -/
theorem claim_C2 (now : Timestamp) (metadata : PackageMetadata)
    (githubHealth : Option GitHubRepoHealth) :
    (∀ d, githubHealth.bind GitHubRepoHealth.lastCommitDate = some d →
      resolveLastUpdate metadata githubHealth = some d)
    ∧ (githubHealth.bind GitHubRepoHealth.lastCommitDate = none →
      resolveLastUpdate metadata githubHealth = metadata.lastPublished)
    ∧ (resolveLastUpdate metadata githubHealth = none →
      calculateFreshnessScore now metadata githubHealth
        = ⟨50, none, none, FreshnessStatus.unknown⟩)
    ∧ (∀ t, resolveLastUpdate metadata githubHealth = some t →
        isArchivedFlag githubHealth = false →
        (calculateFreshnessScore now metadata githubHealth).daysSinceUpdate
          = some ((now - t).fdiv msPerDay)
        ∧ (calculateFreshnessScore now metadata githubHealth).score
          = (freshnessThresholds ((now - t).fdiv msPerDay)).1
        ∧ (calculateFreshnessScore now metadata githubHealth).status
          = (freshnessThresholds ((now - t).fdiv msPerDay)).2)
    ∧ (∀ days : Int,
        (days < 180 → freshnessThresholds days = (100, FreshnessStatus.active))
        ∧ (180 ≤ days → days < 365 → freshnessThresholds days = (75, FreshnessStatus.active))
        ∧ (365 ≤ days → days < 730 → freshnessThresholds days = (40, FreshnessStatus.stale))
        ∧ (730 ≤ days → days < 1095 →
            freshnessThresholds days = (20, FreshnessStatus.abandoned))
        ∧ (1095 ≤ days → freshnessThresholds days = (5, FreshnessStatus.abandoned)))
    ∧ (freshnessThresholds 179 = (100, FreshnessStatus.active)
      ∧ freshnessThresholds 180 = (75, FreshnessStatus.active)
      ∧ freshnessThresholds 364 = (75, FreshnessStatus.active)
      ∧ freshnessThresholds 365 = (40, FreshnessStatus.stale)
      ∧ freshnessThresholds 729 = (40, FreshnessStatus.stale)
      ∧ freshnessThresholds 730 = (20, FreshnessStatus.abandoned)
      ∧ freshnessThresholds 1094 = (20, FreshnessStatus.abandoned)
      ∧ freshnessThresholds 1095 = (5, FreshnessStatus.abandoned)) := by
  refine ⟨?_, ?_, ?_, ?_, ?_, ?_⟩
  · intro d h
    unfold resolveLastUpdate
    rw [h]
  · intro h
    unfold resolveLastUpdate
    rw [h]
  · exact calculateFreshnessScore_none now metadata githubHealth
  · intro t ht harch
    rw [calculateFreshnessScore_some now t metadata githubHealth ht]
    simp [harch]
  · intro days
    refine ⟨fun h1 => ?_, fun h1 h2 => ?_, fun h1 h2 => ?_, fun h1 h2 => ?_, fun h1 => ?_⟩
    · unfold freshnessThresholds
      rw [if_pos h1]
    · unfold freshnessThresholds
      rw [if_neg (by omega), if_pos h2]
    · unfold freshnessThresholds
      rw [if_neg (by omega), if_neg (by omega), if_pos h2]
    · unfold freshnessThresholds
      rw [if_neg (by omega), if_neg (by omega), if_neg (by omega), if_pos h2]
    · unfold freshnessThresholds
      rw [if_neg (by omega), if_neg (by omega), if_neg (by omega), if_neg (by omega)]
  · exact ⟨by decide, by decide, by decide, by decide, by decide, by decide, by decide,
      by decide⟩

/-- Witness for claim C2: a publish date at the epoch and a clock 200 days
later give a day count of 200 and the 75 / active bucket. -/
theorem claim_C2_witness :
    resolveLastUpdate mdPub0 none = some 0
    ∧ isArchivedFlag none = false
    ∧ (calculateFreshnessScore (200 * msPerDay) mdPub0 none).daysSinceUpdate = some 200
    ∧ (calculateFreshnessScore (200 * msPerDay) mdPub0 none).score = 75
    ∧ (calculateFreshnessScore (200 * msPerDay) mdPub0 none).status
      = FreshnessStatus.active := by
  have h := (claim_C2 (200 * msPerDay) mdPub0 none).2.2.2.1 0 rfl rfl
  refine ⟨rfl, rfl, ?_, ?_, ?_⟩
  · rw [h.1]
    decide
  · rw [h.2.1]
    decide
  · rw [h.2.2]
    decide

/-- Claim C5: whenever the repository is archived and a reference timestamp
resolves (so the threshold mapping runs), the freshness score is capped at
min(threshold score, 10), hence at most 10, and the status is forced to
abandoned. -/
theorem claim_C5 (now : Timestamp) (metadata : PackageMetadata) (g : GitHubRepoHealth)
    (harch : g.isArchived = true) (t : Timestamp)
    (hres : resolveLastUpdate metadata (some g) = some t) :
    (calculateFreshnessScore now metadata (some g)).score
      = min (freshnessThresholds ((now - t).fdiv msPerDay)).1 10
    ∧ (calculateFreshnessScore now metadata (some g)).score ≤ 10
    ∧ (calculateFreshnessScore now metadata (some g)).status
      = FreshnessStatus.abandoned := by
  have hA : isArchivedFlag (some g) = true := by
    simp [isArchivedFlag, harch]
  rw [calculateFreshnessScore_some now t metadata (some g) hres]
  refine ⟨?_, ?_, ?_⟩
  · simp [hA]
  · simp only [hA, if_true]
    omega
  · simp [hA]

/-- Witness for claim C5: an archived repository with a commit at the epoch
read at time 0 lands in the 100 / active bucket, yet scores 10 / abandoned. -/
theorem claim_C5_witness :
    ghArchived0.isArchived = true
    ∧ resolveLastUpdate mdEmpty (some ghArchived0) = some 0
    ∧ (calculateFreshnessScore 0 mdEmpty (some ghArchived0)).score = 10
    ∧ (calculateFreshnessScore 0 mdEmpty (some ghArchived0)).status
      = FreshnessStatus.abandoned := by
  have h := claim_C5 0 mdEmpty ghArchived0 rfl 0 rfl
  refine ⟨rfl, rfl, ?_, h.2.2⟩
  rw [h.1]
  decide

/-- Counterexample to claim C3 as stated: the empty string is a present
license that hits neither curated set, so the claim requires 60 / warning,
but the source guard if (!license) is truthy on the empty string and the
program returns the 30 / unknown absent-license record with a null license
field. -/
theorem claim_C3_counterexample :
    ({ mdEmpty with license := some "".toList } : PackageMetadata).license
      = some "".toList
    ∧ DEPRECATED_LICENSES.any
        (fun d => listContainsSub (d.map Char.toUpper) (normalizeLicense "".toList))
      = false
    ∧ OSI_APPROVED_LICENSES.any
        (fun a => listContainsSub (a.map Char.toUpper) (normalizeLicense "".toList))
      = false
    ∧ calculateLicenseScore { mdEmpty with license := some "".toList }
        = ⟨30, none, LicenseStatus.unknown⟩
    ∧ calculateLicenseScore { mdEmpty with license := some "".toList }
        ≠ ⟨60, some "".toList, LicenseStatus.warning⟩ :=
  ⟨rfl, by decide, by decide, by decide, by decide⟩

/-- Claim C3 (amended): a falsy license — null or the empty string — scores
30 / unknown with a null license field; a nonempty license is normalized
(uppercase, whitespace runs to hyphens) and tested by substring containment
against the deprecated set first (50 / deprecated on a hit, so a string
holding both kinds of token classifies as deprecated), then the OSI-approved
set (100 / approved), else 60 / warning; in particular MIT is approved / 100,
GPL-2.0 deprecated / 50 and Some-Custom-License warning / 60. -/
theorem claim_C3_amended (metadata : PackageMetadata) :
    (metadata.license = none →
      calculateLicenseScore metadata = ⟨30, none, LicenseStatus.unknown⟩)
    ∧ (metadata.license = some "".toList →
      calculateLicenseScore metadata = ⟨30, none, LicenseStatus.unknown⟩)
    ∧ (∀ s, metadata.license = some s → s.isEmpty = false →
        (DEPRECATED_LICENSES.any
            (fun d => listContainsSub (d.map Char.toUpper) (normalizeLicense s)) = true →
          calculateLicenseScore metadata = ⟨50, some s, LicenseStatus.deprecated⟩)
        ∧ (DEPRECATED_LICENSES.any
            (fun d => listContainsSub (d.map Char.toUpper) (normalizeLicense s)) = false →
          OSI_APPROVED_LICENSES.any
            (fun a => listContainsSub (a.map Char.toUpper) (normalizeLicense s)) = true →
          calculateLicenseScore metadata = ⟨100, some s, LicenseStatus.approved⟩)
        ∧ (DEPRECATED_LICENSES.any
            (fun d => listContainsSub (d.map Char.toUpper) (normalizeLicense s)) = false →
          OSI_APPROVED_LICENSES.any
            (fun a => listContainsSub (a.map Char.toUpper) (normalizeLicense s)) = false →
          calculateLicenseScore metadata = ⟨60, some s, LicenseStatus.warning⟩))
    ∧ calculateLicenseScore { mdEmpty with license := some "MIT".toList }
        = ⟨100, some "MIT".toList, LicenseStatus.approved⟩
    ∧ calculateLicenseScore { mdEmpty with license := some "GPL-2.0".toList }
        = ⟨50, some "GPL-2.0".toList, LicenseStatus.deprecated⟩
    ∧ calculateLicenseScore { mdEmpty with license := some "Some-Custom-License".toList }
        = ⟨60, some "Some-Custom-License".toList, LicenseStatus.warning⟩ := by
  refine ⟨calculateLicenseScore_none metadata, calculateLicenseScore_empty metadata, ?_,
    by decide, by decide, by decide⟩
  intro s hs hne
  refine ⟨fun h1 => ?_, fun h1 h2 => ?_, fun h1 h2 => ?_⟩
  · rw [calculateLicenseScore_some metadata s hs hne]
    simp [h1]
  · rw [calculateLicenseScore_some metadata s hs hne]
    simp [h1, h2]
  · rw [calculateLicenseScore_some metadata s hs hne]
    simp [h1, h2]

/-- Witness for the amended claim C3: the MIT license is nonempty, misses
the deprecated set, hits the approved set and scores 100 / approved. -/
theorem claim_C3_amended_witness :
    ({ mdEmpty with license := some "MIT".toList } : PackageMetadata).license
      = some "MIT".toList
    ∧ ("MIT".toList).isEmpty = false
    ∧ DEPRECATED_LICENSES.any
        (fun d => listContainsSub (d.map Char.toUpper) (normalizeLicense "MIT".toList))
      = false
    ∧ OSI_APPROVED_LICENSES.any
        (fun a => listContainsSub (a.map Char.toUpper) (normalizeLicense "MIT".toList))
      = true
    ∧ calculateLicenseScore { mdEmpty with license := some "MIT".toList }
        = ⟨100, some "MIT".toList, LicenseStatus.approved⟩ :=
  ⟨rfl, rfl, by decide, by decide,
    ((claim_C3_amended { mdEmpty with license := some "MIT".toList }).2.2.1
      "MIT".toList rfl rfl).2.1 (by decide) (by decide)⟩

/-- The count field of the maintainer mapping is the resolved count. -/
lemma maintainerMapping_count (c : Nat) : (maintainerMapping c).count = c := by
  unfold maintainerMapping
  split_ifs <;> rfl

/-- Claim C4: the maintainer sub-score resolves the count as the repository
contributor count when health was fetched and that count is nonzero, else the
registry maintainer count; the returned count field is the resolved count and
the mapping is exact and non-overlapping: at least 5 gives 100 / healthy,
3 or 4 gives 85 / healthy, 2 gives 70 / warning, 1 gives 40 / warning and
0 gives 10 / critical. -/
theorem claim_C4 (metadata : PackageMetadata) (githubHealth : Option GitHubRepoHealth) :
    (∀ g, githubHealth = some g → g.contributorCount ≠ 0 →
      (calculateMaintainerScore metadata githubHealth).count = g.contributorCount)
    ∧ (∀ g, githubHealth = some g → g.contributorCount = 0 →
      (calculateMaintainerScore metadata githubHealth).count
        = metadata.maintainers.length)
    ∧ (githubHealth = none →
      (calculateMaintainerScore metadata githubHealth).count
        = metadata.maintainers.length)
    ∧ (5 ≤ (calculateMaintainerScore metadata githubHealth).count →
      (calculateMaintainerScore metadata githubHealth).score = 100
      ∧ (calculateMaintainerScore metadata githubHealth).status = MaintainerStatus.healthy)
    ∧ (3 ≤ (calculateMaintainerScore metadata githubHealth).count →
      (calculateMaintainerScore metadata githubHealth).count < 5 →
      (calculateMaintainerScore metadata githubHealth).score = 85
      ∧ (calculateMaintainerScore metadata githubHealth).status = MaintainerStatus.healthy)
    ∧ ((calculateMaintainerScore metadata githubHealth).count = 2 →
      (calculateMaintainerScore metadata githubHealth).score = 70
      ∧ (calculateMaintainerScore metadata githubHealth).status = MaintainerStatus.warning)
    ∧ ((calculateMaintainerScore metadata githubHealth).count = 1 →
      (calculateMaintainerScore metadata githubHealth).score = 40
      ∧ (calculateMaintainerScore metadata githubHealth).status = MaintainerStatus.warning)
    ∧ ((calculateMaintainerScore metadata githubHealth).count = 0 →
      (calculateMaintainerScore metadata githubHealth).score = 10
      ∧ (calculateMaintainerScore metadata githubHealth).status
        = MaintainerStatus.critical) := by
  have hc : (calculateMaintainerScore metadata githubHealth).count
      = resolveMaintainerCount metadata githubHealth := maintainerMapping_count _
  refine ⟨?_, ?_, ?_, ?_, ?_, ?_, ?_, ?_⟩
  · intro g hg hne
    rw [hc, hg]
    simp [resolveMaintainerCount, hne]
  · intro g hg hz
    rw [hc, hg]
    simp [resolveMaintainerCount, hz]
  · intro hg
    rw [hc, hg]
    rfl
  · intro h
    rw [hc] at h
    show (maintainerMapping (resolveMaintainerCount metadata githubHealth)).score = 100
      ∧ (maintainerMapping (resolveMaintainerCount metadata githubHealth)).status
        = MaintainerStatus.healthy
    unfold maintainerMapping
    rw [if_pos h]
    exact ⟨rfl, rfl⟩
  · intro h1 h2
    rw [hc] at h1 h2
    show (maintainerMapping (resolveMaintainerCount metadata githubHealth)).score = 85
      ∧ (maintainerMapping (resolveMaintainerCount metadata githubHealth)).status
        = MaintainerStatus.healthy
    unfold maintainerMapping
    rw [if_neg (by omega), if_pos h1]
    exact ⟨rfl, rfl⟩
  · intro h
    rw [hc] at h
    show (maintainerMapping (resolveMaintainerCount metadata githubHealth)).score = 70
      ∧ (maintainerMapping (resolveMaintainerCount metadata githubHealth)).status
        = MaintainerStatus.warning
    unfold maintainerMapping
    rw [if_neg (by omega), if_neg (by omega), if_pos h]
    exact ⟨rfl, rfl⟩
  · intro h
    rw [hc] at h
    show (maintainerMapping (resolveMaintainerCount metadata githubHealth)).score = 40
      ∧ (maintainerMapping (resolveMaintainerCount metadata githubHealth)).status
        = MaintainerStatus.warning
    unfold maintainerMapping
    rw [if_neg (by omega), if_neg (by omega), if_neg (by omega), if_pos h]
    exact ⟨rfl, rfl⟩
  · intro h
    rw [hc] at h
    show (maintainerMapping (resolveMaintainerCount metadata githubHealth)).score = 10
      ∧ (maintainerMapping (resolveMaintainerCount metadata githubHealth)).status
        = MaintainerStatus.critical
    unfold maintainerMapping
    rw [if_neg (by omega), if_neg (by omega), if_neg (by omega), if_neg (by omega)]
    exact ⟨rfl, rfl⟩

/-- Witness for claim C4: a fetched health record with 7 contributors makes
the count 7 and the score 100 / healthy. -/
theorem claim_C4_witness :
    ghContrib7.contributorCount ≠ 0
    ∧ (calculateMaintainerScore mdEmpty (some ghContrib7)).count = 7
    ∧ (calculateMaintainerScore mdEmpty (some ghContrib7)).score = 100
    ∧ (calculateMaintainerScore mdEmpty (some ghContrib7)).status
      = MaintainerStatus.healthy := by
  have hcnt : (calculateMaintainerScore mdEmpty (some ghContrib7)).count = 7 :=
    (claim_C4 mdEmpty (some ghContrib7)).1 ghContrib7 rfl (by decide)
  have h5 : 5 ≤ (calculateMaintainerScore mdEmpty (some ghContrib7)).count := by
    omega
  have hmap := (claim_C4 mdEmpty (some ghContrib7)).2.2.2.1 h5
  exact ⟨by decide, hcnt, hmap.1, hmap.2⟩

/-- Filtering then taking the length counts the satisfying elements. -/
lemma length_filter_eq_countP {α : Type} (p : α → Bool) (l : List α) :
    (l.filter p).length = l.countP p := by
  induction l with
  | nil => rfl
  | cons a t ih =>
    by_cases h : p a = true <;> simp [List.filter_cons, List.countP_cons, h, ih]

/-- An analysis without a health score is classified unknown. -/
lemma riskOfAnalysis_health_none (a : DependencyAnalysis) (h : a.health = none) :
    riskOfAnalysis a = RiskLevel.unknown := by
  simp [riskOfAnalysis, h, getRiskLevel]

/-- Claim C9: the summary counts as failed exactly the analyses with a
recorded error, and the healthy / warning / critical tallies count only
analyses that have a health score with the corresponding risk level, so a
dependency whose registry fetch threw (health absent, error recorded) is
counted in failed and excluded from all three risk tallies. -/
theorem claim_C9 (analyses : List DependencyAnalysis) :
    (computeScanSummary analyses).failed
      = analyses.countP (fun a => a.error.isSome)
    ∧ (computeScanSummary analyses).healthy
      = analyses.countP
          (fun a => a.health.isSome && decide (riskOfAnalysis a = RiskLevel.healthy))
    ∧ (computeScanSummary analyses).warning
      = analyses.countP
          (fun a => a.health.isSome && decide (riskOfAnalysis a = RiskLevel.warning))
    ∧ (computeScanSummary analyses).critical
      = analyses.countP
          (fun a => a.health.isSome && decide (riskOfAnalysis a = RiskLevel.critical))
    ∧ ∀ dep msg,
        (failedAnalysis dep msg).error.isSome = true
        ∧ riskOfAnalysis (failedAnalysis dep msg) = RiskLevel.unknown
        ∧ riskOfAnalysis (failedAnalysis dep msg) ≠ RiskLevel.healthy
        ∧ riskOfAnalysis (failedAnalysis dep msg) ≠ RiskLevel.warning
        ∧ riskOfAnalysis (failedAnalysis dep msg) ≠ RiskLevel.critical := by
  have hfun : ∀ lv : RiskLevel, lv ≠ RiskLevel.unknown →
      (fun a : DependencyAnalysis => decide (riskOfAnalysis a = lv))
        = (fun a : DependencyAnalysis =>
            a.health.isSome && decide (riskOfAnalysis a = lv)) := by
    intro lv hlv
    funext a
    cases h : a.health with
    | none =>
      rw [riskOfAnalysis_health_none a h]
      simp [Ne.symm hlv]
    | some hs => rfl
  refine ⟨?_, ?_, ?_, ?_, ?_⟩
  · exact length_filter_eq_countP _ _
  · have e : (computeScanSummary analyses).healthy
        = (analyses.filter
            (fun a => decide (riskOfAnalysis a = RiskLevel.healthy))).length := rfl
    rw [e, length_filter_eq_countP, hfun RiskLevel.healthy (by decide)]
  · have e : (computeScanSummary analyses).warning
        = (analyses.filter
            (fun a => decide (riskOfAnalysis a = RiskLevel.warning))).length := rfl
    rw [e, length_filter_eq_countP, hfun RiskLevel.warning (by decide)]
  · have e : (computeScanSummary analyses).critical
        = (analyses.filter
            (fun a => decide (riskOfAnalysis a = RiskLevel.critical))).length := rfl
    rw [e, length_filter_eq_countP, hfun RiskLevel.critical (by decide)]
  · intro dep msg
    have hu : riskOfAnalysis (failedAnalysis dep msg) = RiskLevel.unknown :=
      riskOfAnalysis_health_none _ rfl
    rw [hu]
    exact ⟨rfl, rfl, by decide, by decide, by decide⟩
